import Mathlib

/-!
Verification development for the digital-switchboard lead-intake and
call-dispatch pipeline.  Each definition is a shallow embedding of one
function of the repository; the doc comment of every definition names the
source file it was translated from.  JavaScript-specific behaviour
(truthiness, `NaN` propagation, `||` defaulting) is modelled explicitly.
-/

namespace DS

/-! ### JavaScript primitives used by the embedded code

String operations are implemented over character lists (rather than through
the `String.Pos`-based library loops) so that every definition evaluates by
kernel reduction on concrete inputs. -/

/-- Decimal value of a digit string, `foldl`-style. -/
def digitsToNat (cs : List Char) : Nat :=
  cs.foldl (fun a c => a * 10 + (c.toNat - 48)) 0

/-- JS `Number(s)` restricted to the string shapes exercised here:
`Number("") = 0`, a string of decimal digits parses to its value, and any
other string is `NaN` (modelled as `none`).  The source only ever feeds
`"HH:MM"` fragments and environment strings through `Number`. -/
def jsNumber? (s : String) : Option Nat :=
  if s = "" then some 0
  else if s.toList.all Char.isDigit then some (digitsToNat s.toList)
  else none

/-- Split a character list at every occurrence of `sep`, keeping empty
segments (the behaviour of JS `split` and of `String.splitOn`). -/
def splitChars (sep : Char) : List Char → List (List Char)
  | [] => [[]]
  | c :: cs =>
    let rest := splitChars sep cs
    if c == sep then [] :: rest
    else
      match rest with
      | [] => [[c]]
      | seg :: segs => (c :: seg) :: segs

/-- JS `String.prototype.trim` (ASCII whitespace model). -/
def strTrim (s : String) : String :=
  String.mk (((s.toList.dropWhile Char.isWhitespace).reverse.dropWhile
    Char.isWhitespace).reverse)

/-- ASCII lower-casing of one character (`toLowerCase` model; the keys and
status strings compared in the source are ASCII). -/
def charLower (c : Char) : Char :=
  if 'A' ≤ c ∧ c ≤ 'Z' then Char.ofNat (c.toNat + 32) else c

/-- ASCII `toLowerCase`. -/
def strLower (s : String) : String :=
  String.mk (s.toList.map charLower)

/-- JS `a <= b` where either side may be `NaN` (`none`): any comparison
involving `NaN` is `false`. -/
def jsLe (a b : Option Nat) : Bool :=
  match a, b with
  | some x, some y => decide (x ≤ y)
  | _, _ => false

/-- JS `a >= b` with `NaN` (`none`) on either side yielding `false`. -/
def jsGe (a b : Option Nat) : Bool :=
  match a, b with
  | some x, some y => decide (x ≥ y)
  | _, _ => false

/-- JS `a < b` with `NaN` (`none`) on either side yielding `false`. -/
def jsLt (a b : Option Nat) : Bool :=
  match a, b with
  | some x, some y => decide (x < y)
  | _, _ => false

/-- JS truthiness of a possibly-absent string: `undefined`, `null` and the
empty string are falsy. -/
def strTruthy : Option String → Bool
  | some s => s ≠ ""
  | none => false

/-- JS `a || b` on possibly-absent strings: keep `a` when truthy, else `b`. -/
def jsOrStr (a : Option String) (b : String) : String :=
  match a with
  | some s => if s ≠ "" then s else b
  | none => b

/-! ### Quiet Hours Evaluator

Embeds `isWithinQuietHours` from `server/lib/utils.ts`.  The call
`now.toLocaleTimeString('en-US', { timeZone, hour12:false, … })` is the one
operation whose result depends on the runtime timezone database; it is
modelled as the parameter `current`: `some m` is the local wall-clock
minutes-since-midnight it reports, `none` means it threw (invalid timezone
name), which the source catches and converts to `false`. -/

/-- Computes `const [h, m] = s.split(':').map(Number); h*60 + m` — `NaN` (from a
missing or non-numeric fragment) propagates to `none`. -/
def parseClockMinutes (s : String) : Option Nat :=
  let parts := (splitChars ':' s.toList).map String.mk
  match (parts.get? 0).bind jsNumber?, (parts.get? 1).bind jsNumber? with
  | some h, some m => some (h * 60 + m)
  | _, _ => none

/-- Embeds `isWithinQuietHours(timezone, quietStart, quietEnd)` from
`server/lib/utils.ts`.  Substituting `NaN`-aware comparisons for the raw
`<=`, `>=`, `<` of the source keeps the branch structure identical. -/
def isWithinQuietHours (current : Option Nat) (quietStart quietEnd : String) : Bool :=
  match current with
  | none => false
  | some currentMinutes =>
    let startMinutes := parseClockMinutes quietStart
    let endMinutes := parseClockMinutes quietEnd
    if jsLe startMinutes endMinutes then
      jsGe (some currentMinutes) startMinutes && jsLt (some currentMinutes) endMinutes
    else
      jsGe (some currentMinutes) startMinutes || jsLt (some currentMinutes) endMinutes

/-! ### Dedupe Key Generator

Embeds `generateDedupeKey` from `server/lib/utils.ts`.  `Date.now()` is the
parameter `nowMs`; the environment variable `DEDUPE_WINDOW_MINUTES` is the
parameter `windowRaw` (`none` = unset). -/

/-- Computes `Number.isFinite(Number(raw)) && Number(raw) > 0 ? Number(raw) : 30`.
The model covers unset and integer-valued environment strings. -/
def resolveWindowMinutes (windowRaw : Option String) : Nat :=
  match windowRaw.bind jsNumber? with
  | some n => if 0 < n then n else 30
  | none => 30

/-- Computes `Math.floor(Date.now() / windowMs)` with `windowMs = minutes*60*1000`;
`Nat` division is the floor. -/
def dedupeBucket (windowRaw : Option String) (nowMs : Nat) : Nat :=
  nowMs / (resolveWindowMinutes windowRaw * 60 * 1000)

/-- Embeds `generateDedupeKey(contactId?, phone?)` from `server/lib/utils.ts`.
`throw new Error(…)` is modelled as `Except.error`. -/
def generateDedupeKey (windowRaw : Option String) (nowMs : Nat)
    (contactId phone : Option String) : Except String String :=
  let windowMinutes := resolveWindowMinutes windowRaw
  let bucket := dedupeBucket windowRaw nowMs
  let safeContactId := contactId.map strTrim
  let safePhone := phone.map strTrim
  if strTruthy safeContactId then
    Except.ok ("contact_" ++ safeContactId.getD "" ++ "_w" ++ toString windowMinutes
      ++ "_b" ++ toString bucket)
  else if strTruthy safePhone then
    Except.ok ("phone_" ++ safePhone.getD "" ++ "_w" ++ toString windowMinutes
      ++ "_b" ++ toString bucket)
  else
    Except.error "Cannot generate dedupe key without contactId or phone"

/-! ### JSON detail objects and the Audit Recorder

Two audit implementations coexist in the repository: the TypeScript
`createAuditLog` of `server/lib/audit.ts` stores the detail object verbatim
(`dataJson || null`), while `dist-server/lib/audit.js` first redacts
credential-like keys and size-caps the serialized form.  Both are embedded
below over a tree model of JSON values (JS object identity and circular
references do not arise for tree-shaped inputs, so the `WeakSet` guard of
the dist version never fires and is omitted). -/

inductive Json where
  | null : Json
  | bool (b : Bool) : Json
  | num (n : Int) : Json
  | str (s : String) : Json
  | arr (elems : List Json) : Json
  | obj (fields : List (String × Json)) : Json

/-- JS falsiness of a JSON value (`undefined` is modelled as a missing
`Option` at the call sites): `null`, `false`, `0` and `""` are falsy. -/
def jsonFalsy : Json → Bool
  | .null => true
  | .bool b => !b
  | .num n => n == 0
  | .str s => s == ""
  | _ => false

/-- The `dataJson` column value stored by `createAuditLog` of
`server/lib/audit.ts`: `dataJson || null`, no sanitization. -/
def createAuditLogStoredData (dataJson : Option Json) : Json :=
  match dataJson with
  | none => Json.null
  | some j => if jsonFalsy j then Json.null else j

/-- Tests whether `pat` is a prefix of the character list. -/
def leadsWith : List Char → List Char → Bool
  | [], _ => true
  | _ :: _, [] => false
  | a :: as, b :: bs => a == b && leadsWith as bs

/-- Tests whether `pat` occurs somewhere in the character list (JS `String.includes`). -/
def occursAnywhere (pat : List Char) : List Char → Bool
  | [] => pat.isEmpty
  | b :: bs => leadsWith pat (b :: bs) || occursAnywhere pat bs

/-- JS `s.includes(pat)`. -/
def strIncludes (s pat : String) : Bool :=
  occursAnywhere pat.toList s.toList

/-- The key test of `redact` in `dist-server/lib/audit.js`: lower-cased key
contains one of the credential substrings. -/
def redactKeyName (k : String) : Bool :=
  let key := strLower k
  strIncludes key "authorization" || strIncludes key "api_key" ||
  strIncludes key "apikey" || strIncludes key "token" ||
  strIncludes key "secret" || strIncludes key "password"

mutual

/-- The `walk` of `redact` in `dist-server/lib/audit.js`: primitives pass
through, arrays map, object fields with credential-like keys become
`"[REDACTED]"`, others recurse. -/
def redact : Json → Json
  | .null => .null
  | .bool b => .bool b
  | .num n => .num n
  | .str s => .str s
  | .arr xs => .arr (redactList xs)
  | .obj fs => .obj (redactFields fs)

def redactList : List Json → List Json
  | [] => []
  | x :: xs => redact x :: redactList xs

def redactFields : List (String × Json) → List (String × Json)
  | [] => []
  | (k, v) :: fs =>
    (if redactKeyName k then (k, Json.str "[REDACTED]") else (k, redact v)) :: redactFields fs

end

mutual

/-- Serializes like `JSON.stringify` on the JSON tree model.  String escaping is the
identity here because every string fed to it in this development is free of
quotes, backslashes and control characters. -/
def stringify : Json → String
  | .null => "null"
  | .bool true => "true"
  | .bool false => "false"
  | .num n => toString n
  | .str s => "\"" ++ s ++ "\""
  | .arr xs => "[" ++ stringifyList xs ++ "]"
  | .obj fs => "\x7b" ++ stringifyFields fs ++ "\x7d"

def stringifyList : List Json → String
  | [] => ""
  | [x] => stringify x
  | x :: y :: xs => stringify x ++ "," ++ stringifyList (y :: xs)

def stringifyFields : List (String × Json) → String
  | [] => ""
  | [(k, v)] => "\"" ++ k ++ "\":" ++ stringify v
  | (k, v) :: f :: fs => "\"" ++ k ++ "\":" ++ stringify v ++ "," ++ stringifyFields (f :: fs)

end

/-- Computes `Object.keys` of `v` (empty when falsy): field names for objects, index strings for
arrays, `[]` for primitives. -/
def jsObjectKeys : Json → List String
  | .obj fs => fs.map Prod.fst
  | .arr xs => (List.range xs.length).map toString
  | _ => []

/-- Embeds `safeJson` of `dist-server/lib/audit.js`: redact, serialize, and if the
result exceeds `maxChars` (`AUDIT_JSON_MAX_CHARS`, default 8000) replace it
with a summary of top-level keys, approximate size and a 1000-char preview.
The `try`/`catch` for non-serializable data cannot fire on tree inputs. -/
def safeJson (maxChars : Nat) (data : Option Json) : Json :=
  match data with
  | none => Json.null
  | some d =>
    if jsonFalsy d then Json.null
    else
      let redacted := redact d
      let s := stringify redacted
      if s.toList.length > maxChars then
        Json.obj
          [("note", Json.str "data truncated (too large)"),
           ("approxSize", Json.num s.toList.length),
           ("keys", Json.arr ((jsObjectKeys redacted).map Json.str)),
           ("preview", Json.str (String.mk (s.toList.take 1000) ++ "…[TRUNCATED]"))]
      else redacted

/-! ### Call and Lead status enums (prisma schema) -/

inductive CallStatus where
  | CREATED | IN_PROGRESS | COMPLETED | FAILED
deriving DecidableEq, Repr

inductive LeadStatus where
  | NEW | QUEUED | CALLING | COMPLETED | FAILED | SKIPPED
deriving DecidableEq, Repr

/-- One `createAuditLog(eventType, message, …)` invocation, recorded by its
event type and message; the structured detail argument is studied separately
through `createAuditLogStoredData` / `safeJson`. -/
structure AuditEvent where
  eventType : String
  message : String
deriving DecidableEq, Repr

/-- The `{ success, callId?, error? }` result shape of every provider
adapter's `createCall`. -/
structure DispatchResult where
  success : Bool
  callId : Option String
  error : Option String
deriving DecidableEq, Repr

/-! ### Call Dispatcher — Bland adapter, `server/providers/bland.ts`

`fetch` + tolerant `JSON.parse` are modelled jointly by `BlandHttp`:
`reply ok status call_id error message` is the parsed response (a non-JSON
body surfaces as `error := some rawText`, exactly the source's catch around
`JSON.parse`), and `thrown msg` is a network fault raised by `fetch` after
the Call row has been created.  Database writes are modelled by the final
state they leave behind. -/

inductive BlandHttp where
  | reply (ok : Bool) (status : Nat) (call_id : Option String)
      (error : Option String) (message : Option String)
  | thrown (msg : String)

/-- Embeds `normalizeBaseUrl` of `server/providers/bland.ts` (and of
`dist-server/providers/bland.js`): trim, strip trailing slashes, require an
`https://` prefix. -/
def normalizeBaseUrl (raw : Option String) : Option String :=
  if !strTruthy raw then none
  else
    let trimmed := String.mk (((strTrim (jsOrStr raw "")).toList.reverse.dropWhile
      (· == '/')).reverse)
    if leadsWith "https://".toList trimmed.toList then some trimmed else none

/-- The request body built by `createCall` of `server/providers/bland.ts`:
`transfer_phone_number` is attached only when `transferNumber` is truthy —
there is no self-transfer guard in this adapter. -/
structure BlandPayload where
  phone_number : String
  task : String
  webhook : String
  wait_for_greeting : Bool
  recordFlag : Bool
  transfer_phone_number : Option String
deriving DecidableEq, Repr

/-- Final state of the internal Call row created by a dispatch. -/
structure CallRow where
  status : CallStatus
  providerCallId : Option String
  outcome : Option String
  started : Bool
deriving DecidableEq, Repr

/-- Everything observable a `createCall` run leaves behind. -/
structure BlandEffects where
  callRow : Option CallRow
  leadUpdate : Option (LeadStatus × Option String)
  audits : List AuditEvent
  sentPayload : Option BlandPayload
  result : DispatchResult
deriving DecidableEq, Repr

/-- Embeds `createCall` of `server/providers/bland.ts` as a function of the two
environment variables, the call parameters and the provider response. -/
def blandCreateCall (apiKeyEnv baseUrlEnv : Option String)
    (_leadId _clientId phone instructions : String) (transferNumber : Option String)
    (response : BlandHttp) : BlandEffects :=
  let apiKey := strTrim (jsOrStr apiKeyEnv "")
  if apiKey = "" ∨ apiKey = "your_bland_api_key_here" then
    { callRow := none, leadUpdate := none,
      audits := [⟨"CALL_FAILED", "Bland API key not configured"⟩],
      sentPayload := none,
      result := ⟨false, none, some "API key not configured"⟩ }
  else
    match normalizeBaseUrl baseUrlEnv with
    | none =>
      let msg := "BASE_URL must be set and start with https:// (e.g. https://digital-switchboard-production.up.railway.app)"
      { callRow := none, leadUpdate := none,
        audits := [⟨"CALL_FAILED", msg⟩],
        sentPayload := none,
        result := ⟨false, none, some msg⟩ }
    | some baseUrl =>
      let payload : BlandPayload :=
        { phone_number := phone, task := instructions,
          webhook := baseUrl ++ "/webhook/bland",
          wait_for_greeting := true, recordFlag := true,
          transfer_phone_number := if strTruthy transferNumber then transferNumber else none }
      match response with
      | .thrown msg =>
        { callRow := some ⟨.CREATED, none, none, false⟩,
          leadUpdate := none,
          audits := [⟨"CALL_ERROR", "Call error: " ++ msg⟩],
          sentPayload := some payload,
          result := ⟨false, none, some msg⟩ }
      | .reply ok status call_id error message =>
        if ok && strTruthy call_id then
          { callRow := some ⟨.IN_PROGRESS, call_id, none, true⟩,
            leadUpdate := some (.CALLING, none),
            audits := [⟨"CALL_INITIATED", "Call initiated to " ++ phone⟩],
            sentPayload := some payload,
            result := ⟨true, call_id, none⟩ }
        else
          let errMsg := jsOrStr error (jsOrStr message
            ("Call creation failed (HTTP " ++ toString status ++ ")"))
          { callRow := some ⟨.FAILED, none, some errMsg, false⟩,
            leadUpdate := some (.FAILED, some errMsg),
            audits := [⟨"CALL_FAILED", "Call failed: " ++ errMsg⟩],
            sentPayload := some payload,
            result := ⟨false, none, some errMsg⟩ }

/-! ### Call Dispatcher — compiled Bland adapter, `dist-server/providers/bland.js`

This edition carries the transfer-number self-guard: a transfer number equal
(after trimming) to the destination phone is dropped and a `CALL_WARNING`
audit entry is recorded before the provider request is built. -/

/-- Computes `(env || '').trim() || undefined` for the optional persona/voice
environment knobs. -/
def optTrimmed (e : Option String) : Option String :=
  let t := strTrim (jsOrStr e "")
  if t ≠ "" then some t else none

/-- The `cleanTransfer` guard of `dist-server/providers/bland.js`. -/
def distCleanTransfer (transferNumber : Option String) (phone : String) : Option String :=
  match transferNumber with
  | some t => if t ≠ "" ∧ strTrim t ≠ strTrim phone then some (strTrim t) else none
  | none => none

/-- Request body built by `dist-server/providers/bland.js` (`metadata` /
`request_data` correlation fields carry only the ids already present as
parameters and are omitted). -/
structure DistBlandPayload where
  phone_number : String
  task : String
  webhook : String
  wait_for_greeting : Bool
  recordFlag : Bool
  persona_id : Option String
  voice : Option String
  transfer_phone_number : Option String
deriving DecidableEq, Repr

/-- Observable effects of the dist-adapter `createCall`. -/
structure DistBlandEffects where
  callRow : Option CallRow
  leadUpdate : Option (LeadStatus × Option String)
  audits : List AuditEvent
  sentPayload : Option DistBlandPayload
  result : DispatchResult
deriving DecidableEq, Repr

/-- Embeds `createCall` of `dist-server/providers/bland.js`. -/
def distBlandCreateCall (apiKeyEnv baseUrlEnv personaEnv voiceEnv : Option String)
    (_leadId _clientId phone instructions : String) (transferNumber : Option String)
    (response : BlandHttp) : DistBlandEffects :=
  let apiKeyRaw := strTrim (jsOrStr apiKeyEnv "")
  if apiKeyRaw = "" ∨ apiKeyRaw = "your_bland_api_key_here" then
    { callRow := none, leadUpdate := none,
      audits := [⟨"CALL_FAILED", "Bland API key not configured"⟩],
      sentPayload := none,
      result := ⟨false, none, some "API key not configured"⟩ }
  else
    match normalizeBaseUrl baseUrlEnv with
    | none =>
      let msg := "BASE_URL must be set and start with https:// (e.g. https://digital-switchboard-production.up.railway.app)"
      { callRow := none, leadUpdate := none,
        audits := [⟨"CALL_FAILED", msg⟩],
        sentPayload := none,
        result := ⟨false, none, some msg⟩ }
    | some baseUrl =>
      let personaId := optTrimmed personaEnv
      let voice := optTrimmed voiceEnv
      let cleanTransfer := distCleanTransfer transferNumber phone
      let warning : List AuditEvent :=
        if strTruthy transferNumber ∧ cleanTransfer = none then
          [⟨"CALL_WARNING", "Transfer number matched lead phone; transfer disabled for this call"⟩]
        else []
      let payload : DistBlandPayload :=
        { phone_number := phone, task := instructions,
          webhook := baseUrl ++ "/webhook/bland",
          wait_for_greeting := true, recordFlag := true,
          persona_id := personaId, voice := voice,
          transfer_phone_number := cleanTransfer }
      match response with
      | .thrown msg =>
        { callRow := some ⟨.CREATED, none, none, false⟩,
          leadUpdate := none,
          audits := warning ++ [⟨"CALL_ERROR", "Call error: " ++ msg⟩],
          sentPayload := some payload,
          result := ⟨false, none, some msg⟩ }
      | .reply ok status call_id error message =>
        if ok && strTruthy call_id then
          { callRow := some ⟨.IN_PROGRESS, call_id, none, true⟩,
            leadUpdate := some (.CALLING, none),
            audits := warning ++ [⟨"CALL_INITIATED", "Call initiated to " ++ phone⟩],
            sentPayload := some payload,
            result := ⟨true, call_id, none⟩ }
        else
          let errMsg := jsOrStr error (jsOrStr message
            ("Call creation failed (HTTP " ++ toString status ++ ")"))
          { callRow := some ⟨.FAILED, none, some errMsg, false⟩,
            leadUpdate := some (.FAILED, some errMsg),
            audits := warning ++ [⟨"CALL_FAILED", "Call failed: " ++ errMsg⟩],
            sentPayload := some payload,
            result := ⟨false, none, some errMsg⟩ }

/-! ### Inbound Webhook Handler — `POST /gohighlevel/:clientId` of
`server/routes/webhook.ts`

`parseGhlLead` collapses the tolerated payload shapes into one record; the
handler is embedded over that record (`ParsedLead`).  Collaborators whose
behaviour is environmental — the shared-secret check, `prisma` lookups,
`libphonenumber`, `Date` parsing, the timezone conversion, and the provider
dispatch — enter as oracle fields of `IntakeCtx`.  The `prisma.lead.create`
call is the one modelled fallible operation: its unique-constraint
violation throws and is caught only by the handler's outer `catch`. -/

/-- Tenant row as read by the handler (`prisma.client.findUnique`). -/
structure ClientRow where
  status : String
  timezone : String
  quietHoursStart : String
  quietHoursEnd : String

/-- Active routing-config row (`routingConfigs[0]`). -/
structure RoutingConfigRow where
  provider : Option String
  instructions : String
  transferNumber : Option String

/-- The `timestamp` field of the payload: absent, numeric epoch, or string. -/
inductive JsTimestamp where
  | missing
  | num (n : Int)
  | str (s : String)

/-- Embeds `ageSeconds(timestamp)` of `server/routes/webhook.ts`: best-effort age in
seconds, `none` when missing, falsy (`0`, `""`) or unparseable.  `parseDate`
models `new Date(string).getTime()` (`none` = `NaN`); `Math.floor` of the
real quotient is `Int.fdiv` on integer operands. -/
def ageSeconds (parseDate : String → Option Int) (nowMs : Int) : JsTimestamp → Option Int
  | .missing => none
  | .num n =>
    if n = 0 then none
    else
      let t := if n > 1000000000000 then n else n * 1000
      some (Int.fdiv (nowMs - t) 1000)
  | .str s =>
    if s = "" then none
    else
      match parseDate s with
      | none => none
      | some t => some (Int.fdiv (nowMs - t) 1000)

/-- Computes `a === null ? true : a >= 0 && a <= immediateWindow` from the handler's
quiet-hours policy block. -/
def isImmediate (immediateWindow : Int) : Option Int → Bool
  | none => true
  | some a => decide (0 ≤ a ∧ a ≤ immediateWindow)

/-- Result of `parseGhlLead` (`server/routes/webhook.ts`): the handler never
looks at the raw payload again except through these fields. -/
structure ParsedLead where
  contactId : Option String
  rawPhone : Option String
  timestamp : JsTimestamp

/-- Outcome of `prisma.lead.create`: a fresh row, or a thrown
unique-constraint violation on `(clientId, dedupeKey)` (concurrent
duplicate). -/
inductive LeadCreateOutcome where
  | ok (leadId : String)
  | uniqueViolation (msg : String)

/-- Environmental inputs of one `POST /gohighlevel/:clientId` request. -/
structure IntakeCtx where
  verified : Bool
  clientLookup : Option (ClientRow × Option RoutingConfigRow)
  normPhone : String → Option String
  windowRaw : Option String
  nowMs : Nat
  existingLead : String → Option String
  createLead : LeadCreateOutcome
  immediateWindow : Int
  parseDate : String → Option Int
  localNow : Option Nat
  dispatch : DispatchResult

/-- Observable outcome of one intake request: HTTP status, body message,
final `(callStatus, skipReason)` of the lead row created by this request
(`none` when no row was created or the pre-existing row was left alone),
audit events, and whether the provider dispatch was reached. -/
structure IntakeResult where
  status : Nat
  body : String
  leadFinal : Option (LeadStatus × Option String)
  audits : List AuditEvent
  dispatched : Bool

/-- The `POST /gohighlevel/:clientId` handler of `server/routes/webhook.ts`,
step for step: secret check, tenant lookup, active check, routing check,
phone extraction and normalization, dedupe pre-check, create, freshness /
quiet-hours gate, dispatch; any throw lands in the outer `catch` (500). -/
def ghlIntake (ctx : IntakeCtx) (clientId : String) (lead : ParsedLead) : IntakeResult :=
  if !ctx.verified then
    { status := 403, body := "Forbidden", leadFinal := none,
      audits := [⟨"WEBHOOK_FORBIDDEN", "Invalid GHL webhook secret"⟩], dispatched := false }
  else
    match ctx.clientLookup with
    | none =>
      { status := 404, body := "Client not found", leadFinal := none,
        audits := [⟨"WEBHOOK_ERROR", "Client not found: " ++ clientId⟩], dispatched := false }
    | some (client, routing) =>
      if client.status ≠ "ACTIVE" then
        { status := 200, body := "Client inactive - skipped", leadFinal := none,
          audits := [⟨"CALL_SKIPPED", "Client inactive"⟩], dispatched := false }
      else
        match routing with
        | none =>
          { status := 200, body := "No routing config - skipped", leadFinal := none,
            audits := [⟨"CALL_SKIPPED", "No active routing config"⟩], dispatched := false }
        | some _routingConfig =>
          if !strTruthy lead.rawPhone then
            { status := 400, body := "Phone number required", leadFinal := none,
              audits := [⟨"WEBHOOK_ERROR", "No phone number in payload"⟩], dispatched := false }
          else
            match ctx.normPhone (lead.rawPhone.getD "") with
            | none =>
              { status := 400, body := "Invalid phone number", leadFinal := none,
                audits := [⟨"WEBHOOK_ERROR", "Invalid phone: " ++ lead.rawPhone.getD ""⟩],
                dispatched := false }
            | some phone =>
              match generateDedupeKey ctx.windowRaw ctx.nowMs lead.contactId (some phone) with
              | .error emsg =>
                { status := 500, body := "Internal server error", leadFinal := none,
                  audits := [⟨"WEBHOOK_ERROR", emsg⟩], dispatched := false }
              | .ok dedupeKey =>
                match ctx.existingLead dedupeKey with
                | some _existingId =>
                  { status := 200, body := "Duplicate ignored", leadFinal := none,
                    audits := [⟨"WEBHOOK_DUPLICATE", "Duplicate lead ignored"⟩],
                    dispatched := false }
                | none =>
                  match ctx.createLead with
                  | .uniqueViolation emsg =>
                    { status := 500, body := "Internal server error", leadFinal := none,
                      audits := [⟨"WEBHOOK_ERROR", emsg⟩], dispatched := false }
                  | .ok _leadId =>
                    let a := ageSeconds ctx.parseDate (Int.ofNat ctx.nowMs) lead.timestamp
                    let immediate := isImmediate ctx.immediateWindow a
                    let createdAudit : List AuditEvent := [⟨"LEAD_CREATED", "Lead created"⟩]
                    if !immediate &&
                        isWithinQuietHours ctx.localNow client.quietHoursStart client.quietHoursEnd then
                      { status := 200, body := "Skipped (quiet hours)",
                        leadFinal := some (.SKIPPED, some "Quiet hours"),
                        audits := createdAudit ++ [⟨"CALL_SKIPPED", "Quiet hours (non-immediate lead)"⟩],
                        dispatched := false }
                    else
                      if ctx.dispatch.success then
                        { status := 200, body := "Lead received and call initiated",
                          leadFinal := some (.CALLING, none),
                          audits := createdAudit ++ [⟨"CALL_INITIATED", "Call initiated"⟩],
                          dispatched := true }
                      else
                        { status := 200, body := "Lead received but call failed",
                          leadFinal := some (.FAILED, some (jsOrStr ctx.dispatch.error "Call failed")),
                          audits := createdAudit ++ [⟨"CALL_FAILED", "Call failed to initiate"⟩],
                          dispatched := true }

/-! ### Provider Callback Handlers — `POST /webhook/bland` and
`POST /webhook/vapi` of `server/routes/webhook.ts`

The size-capped `safePayloadSnapshot` stored into `rawProviderPayload` is
orthogonal to the claims below and not tracked; `prisma.call.update` is the
modelled throw site for the handlers' exception path. -/

/-- Printable tag of a `CallStatus` for the template-literal audit
messages. -/
def CallStatus.tag : CallStatus → String
  | .CREATED => "CREATED"
  | .IN_PROGRESS => "IN_PROGRESS"
  | .COMPLETED => "COMPLETED"
  | .FAILED => "FAILED"

/-- Computes `a || b || null` on possibly-absent strings. -/
def jsOrOpt (a b : Option String) : Option String :=
  if strTruthy a then a else if strTruthy b then b else none

/-- Computes `array.join('\n')`. -/
def joinLines : List String → String
  | [] => ""
  | [s] => s
  | s :: t :: rest => s ++ "\n" ++ joinLines (t :: rest)

/-- Fields of a Bland status callback the handler reads. -/
structure BlandCallbackPayload where
  call_id : Option String
  callId : Option String
  status : Option String
  completed : Bool
  error : Option String
  outcome : Option String
  call_length : Option String
  transcript : Option String
  transcripts0text : Option String
  recording_url : Option String

/-- Call row joined with its lead, as returned by
`prisma.call.findUnique({ where: { providerCallId } })`. -/
structure CallbackCallRow where
  id : String
  leadId : String
  clientId : String
  status : CallStatus

/-- Environmental inputs of one provider callback request. -/
structure CallbackCtx where
  verified : Bool
  findCall : String → Option CallbackCallRow
  updateThrows : Option String

/-- The update written to the Call row by a callback. -/
structure CallUpdateData where
  status : CallStatus
  outcome : Option String
  transcript : Option String
  recordingUrl : Option String
  endedSet : Bool
deriving DecidableEq, Repr

/-- Observable outcome of one callback request. -/
structure CallbackResult where
  status : Nat
  body : String
  callUpdate : Option CallUpdateData
  leadUpdate : Option LeadStatus
  audits : List AuditEvent

/-- The `POST /webhook/bland` handler of `server/routes/webhook.ts`:
secret check, call-id extraction (`call_id || callId`), lookup, terminal
idempotency guard, status classification, Call and Lead updates. -/
def blandCallback (ctx : CallbackCtx) (payload : BlandCallbackPayload) : CallbackResult :=
  if !ctx.verified then
    { status := 403, body := "Forbidden", callUpdate := none, leadUpdate := none,
      audits := [⟨"WEBHOOK_FORBIDDEN", "Invalid Bland webhook secret"⟩] }
  else
    let providerCallId := jsOrOpt payload.call_id payload.callId
    if !strTruthy providerCallId then
      { status := 400, body := "call_id required", callUpdate := none, leadUpdate := none,
        audits := [] }
    else
      match ctx.findCall (providerCallId.getD "") with
      | none =>
        { status := 404, body := "Call not found", callUpdate := none, leadUpdate := none,
          audits := [] }
      | some call =>
        if call.status = .COMPLETED ∨ call.status = .FAILED then
          { status := 200, body := "Already processed", callUpdate := none, leadUpdate := none,
            audits := [] }
        else
          let status := strLower (jsOrStr payload.status "")
          let callStatus : CallStatus :=
            if status = "completed" ∨ payload.completed then .COMPLETED
            else if status = "failed" ∨ strTruthy payload.error then .FAILED
            else .IN_PROGRESS
          let leadStatus : LeadStatus :=
            if callStatus = .COMPLETED then .COMPLETED
            else if callStatus = .FAILED then .FAILED
            else .CALLING
          match ctx.updateThrows with
          | some emsg =>
            { status := 500, body := "Internal server error", callUpdate := none,
              leadUpdate := none, audits := [⟨"WEBHOOK_ERROR", emsg⟩] }
          | none =>
            { status := 200, body := "Webhook processed",
              callUpdate := some
                { status := callStatus,
                  outcome := jsOrOpt payload.outcome payload.call_length,
                  transcript := jsOrOpt payload.transcript payload.transcripts0text,
                  recordingUrl := jsOrOpt payload.recording_url none,
                  endedSet := callStatus = .COMPLETED ∨ callStatus = .FAILED },
              leadUpdate := some leadStatus,
              audits := [⟨"CALL_UPDATED", "Call status updated: " ++ callStatus.tag⟩] }

/-- Fields of a Vapi status callback the handler reads.
`messageTranscript` is `payload?.message?.transcript` (an array of
`{role, text}` turns; an empty array is still truthy in JS). -/
structure VapiCallbackPayload where
  callObjId : Option String
  id : Option String
  messageType : Option String
  messageStatus : Option String
  messageTranscript : Option (List (String × String))
  transcript : Option String
  messageEndedReason : Option String
  endedReason : Option String
  messageRecordingUrl : Option String
  recordingUrl : Option String

/-- The `POST /webhook/vapi` handler of `server/routes/webhook.ts`. -/
def vapiCallback (ctx : CallbackCtx) (payload : VapiCallbackPayload) : CallbackResult :=
  if !ctx.verified then
    { status := 403, body := "Forbidden", callUpdate := none, leadUpdate := none,
      audits := [⟨"WEBHOOK_FORBIDDEN", "Invalid Vapi webhook secret"⟩] }
  else
    let providerCallId := jsOrOpt payload.callObjId payload.id
    if !strTruthy providerCallId then
      { status := 400, body := "call id required", callUpdate := none, leadUpdate := none,
        audits := [] }
    else
      match ctx.findCall (providerCallId.getD "") with
      | none =>
        { status := 404, body := "Call not found", callUpdate := none, leadUpdate := none,
          audits := [] }
      | some call =>
        if call.status = .COMPLETED ∨ call.status = .FAILED then
          { status := 200, body := "Already processed", callUpdate := none, leadUpdate := none,
            audits := [] }
        else
          let messageType := jsOrStr payload.messageType ""
          let callStatus : CallStatus :=
            if messageType = "end-of-call-report" then .COMPLETED
            else if messageType = "status-update" ∧ payload.messageStatus = some "ended" then
              .COMPLETED
            else if payload.messageStatus = some "failed" then .FAILED
            else .IN_PROGRESS
          let leadStatus : LeadStatus :=
            if callStatus = .COMPLETED then .COMPLETED
            else if callStatus = .FAILED then .FAILED
            else .CALLING
          let transcript : Option String :=
            match payload.messageTranscript with
            | some turns =>
              some (joinLines (turns.map fun t => t.1 ++ ": " ++ t.2))
            | none => jsOrOpt payload.transcript none
          match ctx.updateThrows with
          | some emsg =>
            { status := 500, body := "Internal server error", callUpdate := none,
              leadUpdate := none, audits := [⟨"WEBHOOK_ERROR", emsg⟩] }
          | none =>
            { status := 200, body := "Webhook processed",
              callUpdate := some
                { status := callStatus,
                  outcome := jsOrOpt payload.messageEndedReason payload.endedReason,
                  transcript := transcript,
                  recordingUrl := jsOrOpt payload.messageRecordingUrl payload.recordingUrl,
                  endedSet := callStatus = .COMPLETED ∨ callStatus = .FAILED },
              leadUpdate := some leadStatus,
              audits := [⟨"CALL_UPDATED", "Vapi call status updated: " ++ callStatus.tag⟩] }

/-! ### Call Dispatcher — Vapi adapter, `server/providers/vapi.ts`

The Vapi request has no transfer field of its own: when `VAPI_ASSISTANT_ID`
is configured the transfer number is forwarded verbatim into
`assistantOverrides.variableValues` (`transferNumber || ''`); in the
dynamic-assistant branch (no assistant id) it is dropped altogether.  The
computed webhook URL is logged and audited but is not part of the request
body.  As for the Bland adapters, `metadata` carries only ids already
present as parameters and is omitted, and `BlandHttp.reply`'s identifier
field plays the role of `data.id`. -/

/-- Embeds `normalizeBaseUrl` of `server/providers/vapi.ts`: like the Bland
one, but additionally rejects a URL containing `/webhook`. -/
def vapiNormalizeBaseUrl (raw : Option String) : Option String :=
  if !strTruthy raw then none
  else
    let trimmed := String.mk (((strTrim (jsOrStr raw "")).toList.reverse.dropWhile
      (· == '/')).reverse)
    if !leadsWith "https://".toList trimmed.toList then none
    else if strIncludes trimmed "/webhook" then none
    else some trimmed

/-- Embeds the `assistantOverrides` object built when a pre-configured
assistant id is present: `variableValues = { instructions, transferNumber:
transferNumber || '' }` plus the two flags. -/
structure VapiAssistantOverrides where
  instructions : String
  transferNumber : String
  recordingEnabled : Bool
  endCallFunctionEnabled : Bool
deriving DecidableEq, Repr

/-- Embeds the dynamic `assistant` object built when no assistant id is
configured: a gpt-4 system message carrying the instructions, a voice id
(`VAPI_VOICE_ID || '21m00Tcm4TlvDq8ikWAM'`) and the fixed first message.
The transfer number appears nowhere in it. -/
structure VapiDynamicAssistant where
  systemContent : String
  voiceId : String
  firstMessage : String
deriving DecidableEq, Repr

/-- Request body built by `createCall` of `server/providers/vapi.ts`. -/
structure VapiPayload where
  customerNumber : String
  phoneNumberId : Option String
  assistantId : Option String
  assistantOverrides : Option VapiAssistantOverrides
  assistant : Option VapiDynamicAssistant
deriving DecidableEq, Repr

/-- Observable effects of the Vapi-adapter `createCall`. -/
structure VapiEffects where
  callRow : Option CallRow
  leadUpdate : Option (LeadStatus × Option String)
  audits : List AuditEvent
  sentPayload : Option VapiPayload
  result : DispatchResult
deriving DecidableEq, Repr

/-- Embeds `createCall` of `server/providers/vapi.ts` as a function of the
five environment variables, the call parameters and the provider
response. -/
def vapiCreateCall (apiKeyEnv assistantIdEnv phoneNumberIdEnv baseUrlEnv voiceIdEnv :
      Option String)
    (_leadId _clientId phone instructions : String) (transferNumber : Option String)
    (response : BlandHttp) : VapiEffects :=
  let apiKey := strTrim (jsOrStr apiKeyEnv "")
  let assistantId := strTrim (jsOrStr assistantIdEnv "")
  let phoneNumberId := strTrim (jsOrStr phoneNumberIdEnv "")
  if apiKey = "" then
    { callRow := none, leadUpdate := none,
      audits := [⟨"CALL_FAILED", "VAPI_API_KEY not configured"⟩],
      sentPayload := none,
      result := ⟨false, none, some "VAPI_API_KEY not configured"⟩ }
  else
    match vapiNormalizeBaseUrl baseUrlEnv with
    | none =>
      let msg := "BASE_URL must be set to ONLY the domain and start with https:// (e.g. https://digital-switchboard-production.up.railway.app)"
      { callRow := none, leadUpdate := none,
        audits := [⟨"CALL_FAILED", msg⟩],
        sentPayload := none,
        result := ⟨false, none, some msg⟩ }
    | some _baseUrl =>
      let payload : VapiPayload :=
        { customerNumber := phone,
          phoneNumberId := if phoneNumberId ≠ "" then some phoneNumberId else none,
          assistantId := if assistantId ≠ "" then some assistantId else none,
          assistantOverrides :=
            if assistantId ≠ "" then
              some ⟨instructions, jsOrStr transferNumber "", true, true⟩
            else none,
          assistant :=
            if assistantId ≠ "" then none
            else
              some ⟨instructions, jsOrStr voiceIdEnv "21m00Tcm4TlvDq8ikWAM",
                "Hello! How can I help you today?"⟩ }
      match response with
      | .thrown msg =>
        { callRow := some ⟨.CREATED, none, none, false⟩,
          leadUpdate := none,
          audits := [⟨"CALL_ERROR", "Vapi call error: " ++ msg⟩],
          sentPayload := some payload,
          result := ⟨false, none, some msg⟩ }
      | .reply ok status id error message =>
        if ok && strTruthy id then
          { callRow := some ⟨.IN_PROGRESS, id, none, true⟩,
            leadUpdate := some (.CALLING, none),
            audits := [⟨"CALL_INITIATED", "Vapi call initiated to " ++ phone⟩],
            sentPayload := some payload,
            result := ⟨true, id, none⟩ }
        else
          let errMsg := jsOrStr error (jsOrStr message
            ("Call creation failed (HTTP " ++ toString status ++ ")"))
          { callRow := some ⟨.FAILED, none, some errMsg, false⟩,
            leadUpdate := some (.FAILED, some errMsg),
            audits := [⟨"CALL_FAILED", "Vapi call failed: " ++ errMsg⟩],
            sentPayload := some payload,
            result := ⟨false, none, some errMsg⟩ }

/-! ## Theorems -/

/-! ### C7 — quiet-hours window semantics -/

/-- C7 counterexample: the claim says any parse failure returns `false`,
but an unparseable quiet-start string does not throw in the source — it
degrades to `NaN` comparisons, and with a parseable end `"06:00"` the
evaluator classifies a 02:00 local time (`120` minutes) as *inside* the
window. -/
theorem C7_counterexample :
    parseClockMinutes "banana" = none ∧
    isWithinQuietHours (some 120) "banana" "06:00" = true :=
  ⟨by decide, by decide⟩

/-- C7 amended: the evaluator implements `[start, end)` with midnight
wraparound on parseable windows and returns `false` when the timezone
conversion throws; but an unparseable `"HH:MM"` string yields `NaN`
comparisons rather than a fail-safe `false`: an unparseable start degrades
to `now < end`, an unparseable end to `now ≥ start`, and only both
unparseable give `false`.  The claim's concrete examples hold. -/
theorem C7_quiet_hours_semantics (cur sm em : Nat) (s e : String) :
    (parseClockMinutes s = some sm → parseClockMinutes e = some em → sm ≤ em →
      (isWithinQuietHours (some cur) s e = true ↔ (sm ≤ cur ∧ cur < em))) ∧
    (parseClockMinutes s = some sm → parseClockMinutes e = some em → em < sm →
      (isWithinQuietHours (some cur) s e = true ↔ (sm ≤ cur ∨ cur < em))) ∧
    (parseClockMinutes s = none → parseClockMinutes e = some em →
      (isWithinQuietHours (some cur) s e = true ↔ cur < em)) ∧
    (parseClockMinutes s = some sm → parseClockMinutes e = none →
      (isWithinQuietHours (some cur) s e = true ↔ sm ≤ cur)) ∧
    (parseClockMinutes s = none → parseClockMinutes e = none →
      isWithinQuietHours (some cur) s e = false) ∧
    isWithinQuietHours none s e = false ∧
    isWithinQuietHours (some (23 * 60 + 30)) "22:00" "06:00" = true ∧
    isWithinQuietHours (some (2 * 60)) "22:00" "06:00" = true ∧
    isWithinQuietHours (some (12 * 60)) "22:00" "06:00" = false := by
  refine ⟨?_, ?_, ?_, ?_, ?_, rfl, by decide, by decide, by decide⟩ <;>
    intro hs he
  · intro hle
    simp [isWithinQuietHours, hs, he, jsLe, jsGe, jsLt, hle]
  · intro hlt
    simp [isWithinQuietHours, hs, he, jsLe, jsGe, jsLt, Nat.not_le.mpr hlt]
  · simp [isWithinQuietHours, hs, he, jsLe, jsGe, jsLt]
  · simp [isWithinQuietHours, hs, he, jsLe, jsGe, jsLt]
  · simp [isWithinQuietHours, hs, he, jsLe, jsGe, jsLt]

/-- C7 witness: the wraparound case at 23:30 for the 22:00–06:00 window,
through the amended theorem. -/
theorem C7_witness :
    parseClockMinutes "22:00" = some 1320 ∧ parseClockMinutes "06:00" = some 360 ∧
    (isWithinQuietHours (some 1410) "22:00" "06:00" = true ↔ (1320 ≤ 1410 ∨ 1410 < 360)) :=
  ⟨by decide, by decide,
    (C7_quiet_hours_semantics 1410 1320 360 "22:00" "06:00").2.1 (by decide) (by decide)
      (by decide)⟩

/-! ### C8 — dedupe key generation -/

/-- C8: the window bucket is `floor(Date.now() / windowMs)` with a default
window of 30 minutes; with a (trim-)nonempty contact identifier the
contact-based key is produced, independent of the phone; with neither
input present the generator throws. -/
theorem C8_dedupe_key_generator (nowMs : Nat) (c p p2 : String) (hc : strTrim c ≠ "") :
    resolveWindowMinutes none = 30 ∧
    dedupeBucket none nowMs = nowMs / (30 * 60 * 1000) ∧
    generateDedupeKey none nowMs (some c) (some p) =
      Except.ok ("contact_" ++ strTrim c ++ "_w" ++ toString (30 : Nat)
        ++ "_b" ++ toString (dedupeBucket none nowMs)) ∧
    generateDedupeKey none nowMs (some c) (some p) =
      generateDedupeKey none nowMs (some c) (some p2) ∧
    generateDedupeKey none nowMs none none =
      Except.error "Cannot generate dedupe key without contactId or phone" := by
  refine ⟨rfl, rfl, ?_, ?_, rfl⟩ <;>
    simp [generateDedupeKey, strTruthy, hc, resolveWindowMinutes]

/-- C8 witness: two submissions with the same contact id, same 30-minute
bucket and different phones produce the same key. -/
theorem C8_witness :
    strTrim "abc" ≠ "" ∧
    (resolveWindowMinutes none = 30 ∧
     dedupeBucket none 1800000 = 1800000 / (30 * 60 * 1000) ∧
     generateDedupeKey none 1800000 (some "abc") (some "+15551234567") =
       Except.ok ("contact_" ++ strTrim "abc" ++ "_w" ++ toString (30 : Nat)
         ++ "_b" ++ toString (dedupeBucket none 1800000)) ∧
     generateDedupeKey none 1800000 (some "abc") (some "+15551234567") =
       generateDedupeKey none 1800000 (some "abc") (some "+15559990000") ∧
     generateDedupeKey none 1800000 none none =
       Except.error "Cannot generate dedupe key without contactId or phone") :=
  ⟨by decide, C8_dedupe_key_generator 1800000 "abc" "+15551234567" "+15559990000" (by decide)⟩

/-! ### C9 — audit-detail sanitization -/

/-- C9 counterexample: the Audit Recorder of `server/lib/audit.ts` stores a
detail object containing an `apiKey` credential verbatim — no recursive
redaction and no size cap happen before storage, although the key matches
the redaction policy's name test. -/
theorem C9_counterexample :
    createAuditLogStoredData
        (some (Json.obj [("apiKey", Json.str "sk-live-123"), ("count", Json.num 1)])) =
      Json.obj [("apiKey", Json.str "sk-live-123"), ("count", Json.num 1)] ∧
    redactKeyName "apiKey" = true :=
  ⟨rfl, by decide⟩

/-- Every field of `fs` whose key matches the redaction name test is
`"[REDACTED]"` in `redactFields fs`. -/
theorem redactFields_mem (k : String) (v : Json) (fs : List (String × Json))
    (hk : redactKeyName k = true) (hmem : (k, v) ∈ fs) :
    (k, Json.str "[REDACTED]") ∈ redactFields fs := by
  induction fs with
  | nil => cases hmem
  | cons hd tl ih =>
    rcases List.mem_cons.mp hmem with h | h
    · subst h
      simp [redactFields, hk]
    · cases hd with
      | mk k0 v0 =>
        simp only [redactFields, List.mem_cons]
        exact Or.inr (ih h)

/-- C9 amended: the TypeScript Audit Recorder stores the structured detail
verbatim; the sanitization the claim describes lives in the compiled audit
module `dist-server/lib/audit.js`: keys matching the credential name test
are recursively redacted, and when the redacted serialization exceeds the
cap the stored body is the summary object (note, size estimate, top-level
key names, 1000-character preview). -/
theorem C9_audit_sanitization (j d : Json) (k : String) (v : Json)
    (fs : List (String × Json)) (maxChars : Nat) :
    (jsonFalsy j = false → createAuditLogStoredData (some j) = j) ∧
    (redactKeyName k = true → (k, v) ∈ fs →
      (k, Json.str "[REDACTED]") ∈ redactFields fs) ∧
    (jsonFalsy d = false → (stringify (redact d)).length > maxChars →
      safeJson maxChars (some d) =
        Json.obj
          [("note", Json.str "data truncated (too large)"),
           ("approxSize", Json.num (stringify (redact d)).length),
           ("keys", Json.arr ((jsObjectKeys (redact d)).map Json.str)),
           ("preview",
            Json.str (String.mk ((stringify (redact d)).toList.take 1000) ++ "…[TRUNCATED]"))]) ∧
    (jsonFalsy d = false → ¬((stringify (redact d)).length > maxChars) →
      safeJson maxChars (some d) = redact d) := by
  refine ⟨?_, redactFields_mem k v fs, ?_, ?_⟩
  · intro hj
    simp [createAuditLogStoredData, hj]
  · intro hd hlen
    simp [safeJson, hd, hlen]
  · intro hd hlen
    simp [safeJson, hd, hlen]

/-- C9 witness: a `token` field is redacted, and a 24-character redacted
serialization over a 10-character cap is replaced by the summary object. -/
theorem C9_witness :
    (redactKeyName "token" = true → ("token", Json.str "x") ∈ [("token", Json.str "x")] →
      ("token", Json.str "[REDACTED]") ∈ redactFields [("token", Json.str "x")]) ∧
    (jsonFalsy (Json.obj [("a", Json.str "0123456789012345")]) = false →
      (stringify (redact (Json.obj [("a", Json.str "0123456789012345")]))).length > 10 →
      safeJson 10 (some (Json.obj [("a", Json.str "0123456789012345")])) =
        Json.obj
          [("note", Json.str "data truncated (too large)"),
           ("approxSize",
            Json.num (stringify (redact (Json.obj [("a", Json.str "0123456789012345")]))).length),
           ("keys",
            Json.arr ((jsObjectKeys (redact (Json.obj [("a", Json.str "0123456789012345")]))).map Json.str)),
           ("preview",
            Json.str (String.mk
              ((stringify (redact (Json.obj [("a", Json.str "0123456789012345")]))).toList.take 1000)
              ++ "…[TRUNCATED]"))]) :=
  ⟨(C9_audit_sanitization Json.null (Json.obj [("a", Json.str "0123456789012345")]) "token"
      (Json.str "x") [("token", Json.str "x")] 10).2.1,
   (C9_audit_sanitization Json.null (Json.obj [("a", Json.str "0123456789012345")]) "token"
      (Json.str "x") [("token", Json.str "x")] 10).2.2.1⟩

/-! ### C4 — transfer-number self-guard -/

/-- C4 counterexample: the TypeScript Bland adapter dispatches a call whose
transfer number equals the destination phone with the transfer number still
in the provider request and no warning audit entry — the self-guard the
claim describes is absent from `server/providers/bland.ts`. -/
theorem C4_counterexample :
    blandCreateCall (some "test-key") (some "https://x.app") "lead-1" "client-1"
        "+15551234567" "follow the script" (some "+15551234567")
        (BlandHttp.reply true 200 (some "call-1") none none) =
      { callRow := some ⟨.IN_PROGRESS, some "call-1", none, true⟩,
        leadUpdate := some (.CALLING, none),
        audits := [⟨"CALL_INITIATED", "Call initiated to +15551234567"⟩],
        sentPayload := some
          { phone_number := "+15551234567", task := "follow the script",
            webhook := "https://x.app/webhook/bland", wait_for_greeting := true,
            recordFlag := true, transfer_phone_number := some "+15551234567" },
        result := ⟨true, some "call-1", none⟩ } := by
  decide

/-- C4 amended: the self-transfer guard lives only in the compiled adapter
`dist-server/providers/bland.js`: there, a transfer number equal (after
trimming) to the destination phone is dropped from the provider request, a
`CALL_WARNING` audit entry is recorded, and the dispatch proceeds exactly
as a call without a transfer number.  The TypeScript Bland adapter sends
the self-equal transfer number to the provider unchanged with no warning;
the TypeScript Vapi adapter never emits a warning either, forwards the
transfer number verbatim into `assistantOverrides.variableValues` when an
assistant id is configured, silently drops it in the dynamic-assistant
branch, and in every case proceeds exactly as a call without a transfer
number. -/
theorem C4_transfer_self_guard
    (apiKeyEnv baseUrlEnv personaEnv voiceEnv : Option String)
    (vApiKeyEnv vAssistantEnv vPhoneIdEnv vBaseUrlEnv vVoiceEnv : Option String)
    (leadId clientId phone instr t u vu : String) (resp : BlandHttp)
    (hk1 : strTrim (jsOrStr apiKeyEnv "") ≠ "")
    (hk2 : strTrim (jsOrStr apiKeyEnv "") ≠ "your_bland_api_key_here")
    (hurl : normalizeBaseUrl baseUrlEnv = some u)
    (ht : t ≠ "") (hself : strTrim t = strTrim phone) :
    (∀ p, (distBlandCreateCall apiKeyEnv baseUrlEnv personaEnv voiceEnv leadId clientId phone
        instr (some t) resp).sentPayload = some p → p.transfer_phone_number = none) ∧
    (⟨"CALL_WARNING", "Transfer number matched lead phone; transfer disabled for this call"⟩ : AuditEvent) ∈
      (distBlandCreateCall apiKeyEnv baseUrlEnv personaEnv voiceEnv leadId clientId phone
        instr (some t) resp).audits ∧
    (distBlandCreateCall apiKeyEnv baseUrlEnv personaEnv voiceEnv leadId clientId phone
        instr (some t) resp).result =
      (distBlandCreateCall apiKeyEnv baseUrlEnv personaEnv voiceEnv leadId clientId phone
        instr none resp).result ∧
    (distBlandCreateCall apiKeyEnv baseUrlEnv personaEnv voiceEnv leadId clientId phone
        instr (some t) resp).callRow =
      (distBlandCreateCall apiKeyEnv baseUrlEnv personaEnv voiceEnv leadId clientId phone
        instr none resp).callRow ∧
    (blandCreateCall apiKeyEnv baseUrlEnv leadId clientId phone instr (some t)
        resp).sentPayload.map BlandPayload.transfer_phone_number = some (some t) ∧
    (⟨"CALL_WARNING", "Transfer number matched lead phone; transfer disabled for this call"⟩ : AuditEvent) ∉
      (blandCreateCall apiKeyEnv baseUrlEnv leadId clientId phone instr (some t) resp).audits ∧
    (strTrim (jsOrStr vApiKeyEnv "") ≠ "" → vapiNormalizeBaseUrl vBaseUrlEnv = some vu →
      strTrim (jsOrStr vAssistantEnv "") ≠ "" →
      ∀ p, (vapiCreateCall vApiKeyEnv vAssistantEnv vPhoneIdEnv vBaseUrlEnv vVoiceEnv
          leadId clientId phone instr (some t) resp).sentPayload = some p →
        p.assistantOverrides = some ⟨instr, t, true, true⟩ ∧ p.assistant = none) ∧
    (strTrim (jsOrStr vApiKeyEnv "") ≠ "" → vapiNormalizeBaseUrl vBaseUrlEnv = some vu →
      strTrim (jsOrStr vAssistantEnv "") = "" →
      ∀ p, (vapiCreateCall vApiKeyEnv vAssistantEnv vPhoneIdEnv vBaseUrlEnv vVoiceEnv
          leadId clientId phone instr (some t) resp).sentPayload = some p →
        p.assistantOverrides = none ∧
        p.assistant = some ⟨instr, jsOrStr vVoiceEnv "21m00Tcm4TlvDq8ikWAM",
          "Hello! How can I help you today?"⟩) ∧
    (∀ e, e ∈ (vapiCreateCall vApiKeyEnv vAssistantEnv vPhoneIdEnv vBaseUrlEnv vVoiceEnv
        leadId clientId phone instr (some t) resp).audits →
      e.eventType ≠ "CALL_WARNING") ∧
    (vapiCreateCall vApiKeyEnv vAssistantEnv vPhoneIdEnv vBaseUrlEnv vVoiceEnv leadId clientId
        phone instr (some t) resp).result =
      (vapiCreateCall vApiKeyEnv vAssistantEnv vPhoneIdEnv vBaseUrlEnv vVoiceEnv leadId clientId
        phone instr none resp).result := by
  have hcfg : ¬(strTrim (jsOrStr apiKeyEnv "") = "" ∨
      strTrim (jsOrStr apiKeyEnv "") = "your_bland_api_key_here") := by
    simp [hk1, hk2]
  have hst : strTruthy (some t) = true := by simp [strTruthy, ht]
  have hclean : distCleanTransfer (some t) phone = none := by
    simp [distCleanTransfer, ht, hself]
  have hbland : (∀ p, (distBlandCreateCall apiKeyEnv baseUrlEnv personaEnv voiceEnv leadId
        clientId phone instr (some t) resp).sentPayload = some p →
        p.transfer_phone_number = none) ∧
      (⟨"CALL_WARNING", "Transfer number matched lead phone; transfer disabled for this call"⟩ : AuditEvent) ∈
        (distBlandCreateCall apiKeyEnv baseUrlEnv personaEnv voiceEnv leadId clientId phone
          instr (some t) resp).audits ∧
      (distBlandCreateCall apiKeyEnv baseUrlEnv personaEnv voiceEnv leadId clientId phone
          instr (some t) resp).result =
        (distBlandCreateCall apiKeyEnv baseUrlEnv personaEnv voiceEnv leadId clientId phone
          instr none resp).result ∧
      (distBlandCreateCall apiKeyEnv baseUrlEnv personaEnv voiceEnv leadId clientId phone
          instr (some t) resp).callRow =
        (distBlandCreateCall apiKeyEnv baseUrlEnv personaEnv voiceEnv leadId clientId phone
          instr none resp).callRow ∧
      (blandCreateCall apiKeyEnv baseUrlEnv leadId clientId phone instr (some t)
          resp).sentPayload.map BlandPayload.transfer_phone_number = some (some t) ∧
      (⟨"CALL_WARNING", "Transfer number matched lead phone; transfer disabled for this call"⟩ : AuditEvent) ∉
        (blandCreateCall apiKeyEnv baseUrlEnv leadId clientId phone instr (some t)
          resp).audits := by
    cases resp with
    | thrown m =>
      refine ⟨?_, ?_, ?_, ?_, ?_, ?_⟩ <;>
        simp +decide [distBlandCreateCall, blandCreateCall, hcfg, hurl, hclean, hst,
          AuditEvent.mk.injEq]
    | reply ok status cid err msg =>
      by_cases hok : (ok && strTruthy cid) = true <;>
        refine ⟨?_, ?_, ?_, ?_, ?_, ?_⟩ <;>
          simp +decide [distBlandCreateCall, blandCreateCall, hcfg, hurl, hclean, hst, hok,
            AuditEvent.mk.injEq]
  have hV1 : strTrim (jsOrStr vApiKeyEnv "") ≠ "" → vapiNormalizeBaseUrl vBaseUrlEnv = some vu →
      strTrim (jsOrStr vAssistantEnv "") ≠ "" →
      ∀ p, (vapiCreateCall vApiKeyEnv vAssistantEnv vPhoneIdEnv vBaseUrlEnv vVoiceEnv
          leadId clientId phone instr (some t) resp).sentPayload = some p →
        p.assistantOverrides = some ⟨instr, t, true, true⟩ ∧ p.assistant = none := by
    intro hvk hvu ha p hp
    have hjt : jsOrStr (some t) "" = t := by simp [jsOrStr, ht]
    cases resp with
    | thrown m =>
      simp [vapiCreateCall, hvk, hvu, ha, hjt] at hp
      subst hp
      exact ⟨rfl, rfl⟩
    | reply ok status id err msg =>
      by_cases hok : (ok && strTruthy id) = true <;>
        (simp [vapiCreateCall, hvk, hvu, ha, hjt, hok] at hp; subst hp; exact ⟨rfl, rfl⟩)
  have hV2 : strTrim (jsOrStr vApiKeyEnv "") ≠ "" → vapiNormalizeBaseUrl vBaseUrlEnv = some vu →
      strTrim (jsOrStr vAssistantEnv "") = "" →
      ∀ p, (vapiCreateCall vApiKeyEnv vAssistantEnv vPhoneIdEnv vBaseUrlEnv vVoiceEnv
          leadId clientId phone instr (some t) resp).sentPayload = some p →
        p.assistantOverrides = none ∧
        p.assistant = some ⟨instr, jsOrStr vVoiceEnv "21m00Tcm4TlvDq8ikWAM",
          "Hello! How can I help you today?"⟩ := by
    intro hvk hvu ha p hp
    cases resp with
    | thrown m =>
      simp [vapiCreateCall, hvk, hvu, ha] at hp
      subst hp
      exact ⟨rfl, rfl⟩
    | reply ok status id err msg =>
      by_cases hok : (ok && strTruthy id) = true <;>
        (simp [vapiCreateCall, hvk, hvu, ha, hok] at hp; subst hp; exact ⟨rfl, rfl⟩)
  have hV3 : ∀ e, e ∈ (vapiCreateCall vApiKeyEnv vAssistantEnv vPhoneIdEnv vBaseUrlEnv
      vVoiceEnv leadId clientId phone instr (some t) resp).audits →
      e.eventType ≠ "CALL_WARNING" := by
    intro e he
    simp only [vapiCreateCall] at he
    repeat' split at he
    all_goals simp_all +decide
  have hV4 : (vapiCreateCall vApiKeyEnv vAssistantEnv vPhoneIdEnv vBaseUrlEnv vVoiceEnv
        leadId clientId phone instr (some t) resp).result =
      (vapiCreateCall vApiKeyEnv vAssistantEnv vPhoneIdEnv vBaseUrlEnv vVoiceEnv leadId
        clientId phone instr none resp).result := by
    simp only [vapiCreateCall]
    repeat' split
    all_goals rfl
  exact ⟨hbland.1, hbland.2.1, hbland.2.2.1, hbland.2.2.2.1, hbland.2.2.2.2.1,
    hbland.2.2.2.2.2, hV1, hV2, hV3, hV4⟩

/-- C4 witness: a self-transfer dispatch at concrete inputs — dropped with
a warning by the dist Bland adapter, forwarded verbatim into the assistant
overrides by the TypeScript Vapi adapter with a configured assistant id. -/
theorem C4_witness :
    (∀ p, (distBlandCreateCall (some "test-key") (some "https://x.app") none none "lead-1"
        "client-1" "+15551234567" "task" (some "+15551234567")
        (BlandHttp.reply true 200 (some "call-9") none none)).sentPayload = some p →
      p.transfer_phone_number = none) ∧
    (⟨"CALL_WARNING", "Transfer number matched lead phone; transfer disabled for this call"⟩ : AuditEvent) ∈
      (distBlandCreateCall (some "test-key") (some "https://x.app") none none "lead-1"
        "client-1" "+15551234567" "task" (some "+15551234567")
        (BlandHttp.reply true 200 (some "call-9") none none)).audits ∧
    (∀ p, (vapiCreateCall (some "vapi-key") (some "asst-1") none (some "https://x.app") none
        "lead-1" "client-1" "+15551234567" "task" (some "+15551234567")
        (BlandHttp.reply true 200 (some "call-9") none none)).sentPayload = some p →
      p.assistantOverrides = some ⟨"task", "+15551234567", true, true⟩ ∧
      p.assistant = none) := by
  have h := C4_transfer_self_guard (some "test-key") (some "https://x.app") none none
    (some "vapi-key") (some "asst-1") none (some "https://x.app") none "lead-1"
    "client-1" "+15551234567" "task" "+15551234567" "https://x.app" "https://x.app"
    (BlandHttp.reply true 200 (some "call-9") none none)
    (by decide) (by decide) (by decide) (by decide) (by decide)
  exact ⟨h.1, h.2.1, h.2.2.2.2.2.2.1 (by decide) rfl (by decide)⟩

/-! ### C5 — dispatch-failure bookkeeping -/

/-- C5 counterexample: on a thrown exception (network fault) the Bland
adapter audits `CALL_ERROR` and returns a failure result, but the Call row
stays `CREATED` — it is not updated to `FAILED` — and the adapter applies
no Lead update at all. -/
theorem C5_counterexample :
    blandCreateCall (some "test-key") (some "https://x.app") "lead-1" "client-1"
        "+15551234567" "follow the script" none
        (BlandHttp.thrown "fetch failed: ECONNRESET") =
      { callRow := some ⟨.CREATED, none, none, false⟩,
        leadUpdate := none,
        audits := [⟨"CALL_ERROR", "Call error: fetch failed: ECONNRESET"⟩],
        sentPayload := some
          { phone_number := "+15551234567", task := "follow the script",
            webhook := "https://x.app/webhook/bland", wait_for_greeting := true,
            recordFlag := true, transfer_phone_number := none },
        result := ⟨false, none, some "fetch failed: ECONNRESET"⟩ } := by
  decide

/-- C5 amended: on a *structured* dispatch failure (HTTP non-success or a
success response with no call identifier) the adapter updates the Call to
`FAILED` with the extracted message and the Lead to `FAILED` with it as
skip-reason; on a *thrown* exception the adapter only audits `CALL_ERROR`
and returns the failure result, leaving the Call row `CREATED` and the Lead
untouched — the Lead's `FAILED` + skip-reason update is then applied by the
webhook handler from the returned error. -/
theorem C5_dispatch_failure_bookkeeping (apiKeyEnv baseUrlEnv : Option String)
    (leadId clientId phone instr u m : String) (tn : Option String)
    (ok : Bool) (status : Nat) (cid err msg : Option String)
    (ctx : IntakeCtx) (cId : String) (lead : ParsedLead)
    (hk1 : strTrim (jsOrStr apiKeyEnv "") ≠ "")
    (hk2 : strTrim (jsOrStr apiKeyEnv "") ≠ "your_bland_api_key_here")
    (hurl : normalizeBaseUrl baseUrlEnv = some u)
    (hfail : ¬(ok = true ∧ strTruthy cid = true)) :
    (blandCreateCall apiKeyEnv baseUrlEnv leadId clientId phone instr tn
        (.reply ok status cid err msg)).callRow =
      some ⟨.FAILED, none,
        some (jsOrStr err (jsOrStr msg ("Call creation failed (HTTP " ++ toString status ++ ")"))),
        false⟩ ∧
    (blandCreateCall apiKeyEnv baseUrlEnv leadId clientId phone instr tn
        (.reply ok status cid err msg)).leadUpdate =
      some (.FAILED,
        some (jsOrStr err (jsOrStr msg ("Call creation failed (HTTP " ++ toString status ++ ")")))) ∧
    (blandCreateCall apiKeyEnv baseUrlEnv leadId clientId phone instr tn
        (.reply ok status cid err msg)).result =
      ⟨false, none,
        some (jsOrStr err (jsOrStr msg ("Call creation failed (HTTP " ++ toString status ++ ")")))⟩ ∧
    (blandCreateCall apiKeyEnv baseUrlEnv leadId clientId phone instr tn (.thrown m)).callRow =
      some ⟨.CREATED, none, none, false⟩ ∧
    (blandCreateCall apiKeyEnv baseUrlEnv leadId clientId phone instr tn (.thrown m)).leadUpdate =
      none ∧
    (blandCreateCall apiKeyEnv baseUrlEnv leadId clientId phone instr tn (.thrown m)).audits =
      [⟨"CALL_ERROR", "Call error: " ++ m⟩] ∧
    (blandCreateCall apiKeyEnv baseUrlEnv leadId clientId phone instr tn (.thrown m)).result =
      ⟨false, none, some m⟩ ∧
    ((ghlIntake ctx cId lead).dispatched = true → ctx.dispatch.success = false →
      (ghlIntake ctx cId lead).leadFinal =
        some (.FAILED, some (jsOrStr ctx.dispatch.error "Call failed"))) := by
  have hcfg : ¬(strTrim (jsOrStr apiKeyEnv "") = "" ∨
      strTrim (jsOrStr apiKeyEnv "") = "your_bland_api_key_here") := by
    simp [hk1, hk2]
  have hok : (ok && strTruthy cid) = false := by
    cases hco : strTruthy cid with
    | false => simp
    | true =>
      cases hko : ok with
      | false => simp
      | true => exact absurd ⟨hko, hco⟩ hfail
  refine ⟨?_, ?_, ?_, ?_, ?_, ?_, ?_, ?_⟩
  · simp [blandCreateCall, hcfg, hurl, hok]
  · simp [blandCreateCall, hcfg, hurl, hok]
  · simp [blandCreateCall, hcfg, hurl, hok]
  · simp [blandCreateCall, hcfg, hurl]
  · simp [blandCreateCall, hcfg, hurl]
  · simp [blandCreateCall, hcfg, hurl]
  · simp [blandCreateCall, hcfg, hurl]
  · intro h1 h2
    simp only [ghlIntake] at h1 ⊢
    repeat' split at h1
    all_goals (try split) <;> simp_all

/-- C5 witness: a provider rejection (HTTP 402, error body) at concrete
inputs marks both Call and Lead `FAILED` with the provider's message. -/
theorem C5_witness :
    (blandCreateCall (some "test-key") (some "https://x.app") "lead-1" "client-1"
        "+15551234567" "task" none
        (.reply true 402 none (some "Insufficient balance") none)).callRow =
      some ⟨.FAILED, none, some "Insufficient balance", false⟩ ∧
    (blandCreateCall (some "test-key") (some "https://x.app") "lead-1" "client-1"
        "+15551234567" "task" none
        (.reply true 402 none (some "Insufficient balance") none)).leadUpdate =
      some (.FAILED, some "Insufficient balance") := by
  have h := C5_dispatch_failure_bookkeeping (some "test-key") (some "https://x.app")
    "lead-1" "client-1" "+15551234567" "task" "https://x.app" "boom" none
    true 402 none (some "Insufficient balance") none
    ⟨true, none, fun _ => none, none, 0, fun _ => none, .ok "x", 300, fun _ => none, none,
      ⟨false, none, some "boom"⟩⟩ "client-1" ⟨none, none, .missing⟩
    (by decide) (by decide) (by decide) (by decide)
  exact ⟨h.1, h.2.1⟩

/-! ### C3 — terminal-state idempotency guard -/

/-- C3: a callback for a Call already in a terminal state (`COMPLETED` or
`FAILED`) is acknowledged with 200 "Already processed" and neither the Call
nor its Lead is updated — no audit is written either — on both the Bland
and the Vapi callback handlers. -/
theorem C3_terminal_callback_no_reprocess (ctx ctx2 : CallbackCtx)
    (pb : BlandCallbackPayload) (pv : VapiCallbackPayload)
    (rb rv : CallbackCallRow) (idb idv : String)
    (h1 : ctx.verified = true)
    (h2 : jsOrOpt pb.call_id pb.callId = some idb) (h3 : idb ≠ "")
    (h4 : ctx.findCall idb = some rb)
    (h5 : rb.status = .COMPLETED ∨ rb.status = .FAILED)
    (g1 : ctx2.verified = true)
    (g2 : jsOrOpt pv.callObjId pv.id = some idv) (g3 : idv ≠ "")
    (g4 : ctx2.findCall idv = some rv)
    (g5 : rv.status = .COMPLETED ∨ rv.status = .FAILED) :
    blandCallback ctx pb = ⟨200, "Already processed", none, none, []⟩ ∧
    vapiCallback ctx2 pv = ⟨200, "Already processed", none, none, []⟩ := by
  constructor
  · simp only [blandCallback, h1, h2]
    simp [strTruthy, h3, h4, h5]
  · simp only [vapiCallback, g1, g2]
    simp [strTruthy, g3, g4, g5]

/-- C3 witness: duplicate delivery of a "completed" callback for a Call
already `COMPLETED` is acknowledged without any update, on both handlers. -/
theorem C3_witness :
    blandCallback
        ⟨true, fun s => if s = "b-1" then some ⟨"row-1", "lead-1", "client-1", .COMPLETED⟩
          else none, none⟩
        ⟨some "b-1", none, some "completed", false, none, none, none, none, none, none⟩ =
      ⟨200, "Already processed", none, none, []⟩ ∧
    vapiCallback
        ⟨true, fun s => if s = "v-1" then some ⟨"row-2", "lead-2", "client-2", .FAILED⟩
          else none, none⟩
        ⟨some "v-1", none, some "end-of-call-report", none, none, none, none, none, none,
          none⟩ =
      ⟨200, "Already processed", none, none, []⟩ :=
  C3_terminal_callback_no_reprocess
    ⟨true, fun s => if s = "b-1" then some ⟨"row-1", "lead-1", "client-1", .COMPLETED⟩
      else none, none⟩
    ⟨true, fun s => if s = "v-1" then some ⟨"row-2", "lead-2", "client-2", .FAILED⟩
      else none, none⟩
    ⟨some "b-1", none, some "completed", false, none, none, none, none, none, none⟩
    ⟨some "v-1", none, some "end-of-call-report", none, none, none, none, none, none, none⟩
    ⟨"row-1", "lead-1", "client-1", .COMPLETED⟩ ⟨"row-2", "lead-2", "client-2", .FAILED⟩
    "b-1" "v-1"
    rfl (by decide) (by decide) rfl (Or.inl rfl)
    rfl (by decide) (by decide) rfl (Or.inr rfl)

/-! ### C1 — callback acknowledgment statuses -/

/-- C1 counterexample: the Bland callback handler returns 400 when the
payload has no call identifier, 404 when the identifier matches no Call,
and 500 when processing throws — not 200 as the claim requires for every
processed payload. -/
theorem C1_counterexample :
    (blandCallback ⟨true, fun _ => none, none⟩
        ⟨none, none, none, false, none, none, none, none, none, none⟩).status = 400 ∧
    (blandCallback ⟨true, fun _ => none, none⟩
        ⟨some "unknown-call", none, none, false, none, none, none, none, none,
          none⟩).status = 404 ∧
    (blandCallback
        ⟨true, fun s => if s = "b-1" then some ⟨"row-1", "lead-1", "client-1", .IN_PROGRESS⟩
          else none, some "db write failed"⟩
        ⟨some "b-1", none, some "completed", false, none, none, none, none, none,
          none⟩).status = 500 :=
  ⟨rfl, rfl, rfl⟩

/-- C1 amended: the callback handlers answer 200 only for callbacks they
process to completion and for terminal-state duplicates; a missing call
identifier is answered 400, an unmatched identifier 404, a secret mismatch
403, and a thrown exception 500. -/
theorem C1_callback_status_mapping (ctx : CallbackCtx) (pb : BlandCallbackPayload)
    (pv : VapiCallbackPayload) (idb idv : String) (rb rv : CallbackCallRow) :
    (ctx.verified = false →
      (blandCallback ctx pb).status = 403 ∧ (vapiCallback ctx pv).status = 403) ∧
    (ctx.verified = true → jsOrOpt pb.call_id pb.callId = none →
      (blandCallback ctx pb).status = 400) ∧
    (ctx.verified = true → jsOrOpt pb.call_id pb.callId = some idb → idb ≠ "" →
      ctx.findCall idb = none → (blandCallback ctx pb).status = 404) ∧
    (ctx.verified = true → jsOrOpt pb.call_id pb.callId = some idb → idb ≠ "" →
      ctx.findCall idb = some rb → rb.status = .COMPLETED ∨ rb.status = .FAILED →
      (blandCallback ctx pb).status = 200) ∧
    (ctx.verified = true → jsOrOpt pb.call_id pb.callId = some idb → idb ≠ "" →
      ctx.findCall idb = some rb → ¬(rb.status = .COMPLETED ∨ rb.status = .FAILED) →
      ctx.updateThrows = none → (blandCallback ctx pb).status = 200) ∧
    (ctx.verified = true → jsOrOpt pb.call_id pb.callId = some idb → idb ≠ "" →
      ctx.findCall idb = some rb → ¬(rb.status = .COMPLETED ∨ rb.status = .FAILED) →
      ∀ m, ctx.updateThrows = some m → (blandCallback ctx pb).status = 500) ∧
    (ctx.verified = true → jsOrOpt pv.callObjId pv.id = none →
      (vapiCallback ctx pv).status = 400) ∧
    (ctx.verified = true → jsOrOpt pv.callObjId pv.id = some idv → idv ≠ "" →
      ctx.findCall idv = none → (vapiCallback ctx pv).status = 404) ∧
    (ctx.verified = true → jsOrOpt pv.callObjId pv.id = some idv → idv ≠ "" →
      ctx.findCall idv = some rv → rv.status = .COMPLETED ∨ rv.status = .FAILED →
      (vapiCallback ctx pv).status = 200) ∧
    (ctx.verified = true → jsOrOpt pv.callObjId pv.id = some idv → idv ≠ "" →
      ctx.findCall idv = some rv → ¬(rv.status = .COMPLETED ∨ rv.status = .FAILED) →
      ctx.updateThrows = none → (vapiCallback ctx pv).status = 200) ∧
    (ctx.verified = true → jsOrOpt pv.callObjId pv.id = some idv → idv ≠ "" →
      ctx.findCall idv = some rv → ¬(rv.status = .COMPLETED ∨ rv.status = .FAILED) →
      ∀ m, ctx.updateThrows = some m → (vapiCallback ctx pv).status = 500) := by
  refine ⟨?_, ?_, ?_, ?_, ?_, ?_, ?_, ?_, ?_, ?_, ?_⟩
  · intro h
    exact ⟨by simp [blandCallback, h], by simp [vapiCallback, h]⟩
  · intro h hid
    simp [blandCallback, h, hid, strTruthy]
  · intro h hid hne hf
    simp [blandCallback, h, hid, strTruthy, hne, hf]
  · intro h hid hne hf hterm
    simp [blandCallback, h, hid, strTruthy, hne, hf, hterm]
  · intro h hid hne hf hterm hupd
    simp [blandCallback, h, hid, strTruthy, hne, hf, hterm, hupd]
  · intro h hid hne hf hterm m hm
    simp [blandCallback, h, hid, strTruthy, hne, hf, hterm, hm]
  · intro h hid
    simp [vapiCallback, h, hid, strTruthy]
  · intro h hid hne hf
    simp [vapiCallback, h, hid, strTruthy, hne, hf]
  · intro h hid hne hf hterm
    simp [vapiCallback, h, hid, strTruthy, hne, hf, hterm]
  · intro h hid hne hf hterm hupd
    simp [vapiCallback, h, hid, strTruthy, hne, hf, hterm, hupd]
  · intro h hid hne hf hterm m hm
    simp [vapiCallback, h, hid, strTruthy, hne, hf, hterm, hm]

/-- C1 witness: the 404 branch of the amended mapping at a concrete
unmatched callback. -/
theorem C1_witness :
    (blandCallback ⟨true, fun _ => none, none⟩
        ⟨some "orphan", none, none, false, none, none, none, none, none, none⟩).status =
      404 :=
  (C1_callback_status_mapping ⟨true, fun _ => none, none⟩
      ⟨some "orphan", none, none, false, none, none, none, none, none, none⟩
      ⟨none, none, none, none, none, none, none, none, none, none⟩
      "orphan" "x" ⟨"r", "l", "c", .CREATED⟩ ⟨"r", "l", "c", .CREATED⟩).2.2.1
    rfl (by decide) (by decide) rfl

/-! ### C2 — duplicate-create race -/

/-- C2 counterexample: when the pre-check finds no existing Lead but
`prisma.lead.create` hits the unique `(clientId, dedupeKey)` constraint,
the thrown violation reaches the handler's generic catch and is surfaced as
500 "Internal server error" — not as an "already exists" duplicate/success
outcome. -/
theorem C2_counterexample :
    (ghlIntake
        ⟨true,
         some (⟨"ACTIVE", "America/New_York", "22:00", "06:00"⟩,
           some ⟨some "BLAND", "follow the script", none⟩),
         fun _ => some "+15551234567", none, 0, fun _ => none,
         .uniqueViolation "Unique constraint failed on the fields: (clientId,dedupeKey)",
         300, fun _ => none, none, ⟨true, some "call-1", none⟩⟩
        "client-1" ⟨some "contact-9", some "(555) 123-4567", .missing⟩).status = 500 ∧
    (ghlIntake
        ⟨true,
         some (⟨"ACTIVE", "America/New_York", "22:00", "06:00"⟩,
           some ⟨some "BLAND", "follow the script", none⟩),
         fun _ => some "+15551234567", none, 0, fun _ => none,
         .uniqueViolation "Unique constraint failed on the fields: (clientId,dedupeKey)",
         300, fun _ => none, none, ⟨true, some "call-1", none⟩⟩
        "client-1" ⟨some "contact-9", some "(555) 123-4567", .missing⟩).body =
      "Internal server error" :=
  ⟨rfl, rfl⟩

/-- C2 amended: the handler has no special handling for a duplicate-key
`create`: the thrown unique-constraint violation lands in the generic
catch, which audits `WEBHOOK_ERROR` and answers 500; only a duplicate found
by the pre-check yields the 200 "Duplicate ignored" outcome. -/
theorem C2_duplicate_create_race (ctx : IntakeCtx) (cId : String) (lead : ParsedLead)
    (client : ClientRow) (rc : RoutingConfigRow) (phone dk m eid : String)
    (h1 : ctx.verified = true)
    (h2 : ctx.clientLookup = some (client, some rc))
    (h3 : client.status = "ACTIVE")
    (h4 : strTruthy lead.rawPhone = true)
    (h5 : ctx.normPhone (lead.rawPhone.getD "") = some phone)
    (h6 : generateDedupeKey ctx.windowRaw ctx.nowMs lead.contactId (some phone) = .ok dk) :
    (ctx.existingLead dk = none → ctx.createLead = .uniqueViolation m →
      ghlIntake ctx cId lead =
        ⟨500, "Internal server error", none, [⟨"WEBHOOK_ERROR", m⟩], false⟩) ∧
    (ctx.existingLead dk = some eid →
      ghlIntake ctx cId lead =
        ⟨200, "Duplicate ignored", none,
          [⟨"WEBHOOK_DUPLICATE", "Duplicate lead ignored"⟩], false⟩) := by
  constructor
  · intro hex hcr
    simp [ghlIntake, h1, h2, h3, h4, h5, h6, hex, hcr]
  · intro hex
    simp [ghlIntake, h1, h2, h3, h4, h5, h6, hex]

/-- C2 witness: the concurrent-duplicate scenario of the amended claim at
concrete inputs. -/
theorem C2_witness :
    ghlIntake
        ⟨true,
         some (⟨"ACTIVE", "America/New_York", "22:00", "06:00"⟩,
           some ⟨some "BLAND", "follow the script", none⟩),
         fun _ => some "+15551234567", none, 0, fun _ => none,
         .uniqueViolation "P2002", 300, fun _ => none, none,
         ⟨true, some "call-1", none⟩⟩
        "client-1" ⟨some "contact-9", some "(555) 123-4567", .missing⟩ =
      ⟨500, "Internal server error", none, [⟨"WEBHOOK_ERROR", "P2002"⟩], false⟩ :=
  (C2_duplicate_create_race
      ⟨true,
       some (⟨"ACTIVE", "America/New_York", "22:00", "06:00"⟩,
         some ⟨some "BLAND", "follow the script", none⟩),
       fun _ => some "+15551234567", none, 0, fun _ => none,
       .uniqueViolation "P2002", 300, fun _ => none, none, ⟨true, some "call-1", none⟩⟩
      "client-1" ⟨some "contact-9", some "(555) 123-4567", .missing⟩
      ⟨"ACTIVE", "America/New_York", "22:00", "06:00"⟩
      ⟨some "BLAND", "follow the script", none⟩
      "+15551234567" "contact_contact-9_w30_b0" "P2002" "unused"
      rfl rfl rfl (by decide) rfl rfl).1 rfl rfl

/-! ### C6 — inbound webhook response-code mapping -/

/-- C6 counterexample: a request failing the configured shared-secret check
is answered 403, a status outside the claim's 200/400/404/500 mapping. -/
theorem C6_counterexample :
    (ghlIntake
        ⟨false, none, fun _ => none, none, 0, fun _ => none, .ok "x", 300,
          fun _ => none, none, ⟨false, none, none⟩⟩
        "client-1" ⟨none, none, .missing⟩).status = 403 :=
  rfl

/-- C6 amended: adding the 403 shared-secret rejection, the mapping holds:
every response is 200, 400, 403, 404 or 500; 403 exactly on secret
mismatch; 404 for an unknown tenant; 200 for inactive tenant, missing
routing config, pre-check duplicates and every outcome that leaves a lead
row (quiet-hours skip, dispatch success, dispatch failure); 400 for a
missing or invalid phone; and 500 only for thrown exceptions (the
duplicate-create violation or a dedupe-key error). -/
theorem C6_response_code_mapping (ctx : IntakeCtx) (cId : String) (lead : ParsedLead)
    (client : ClientRow) (routing : Option RoutingConfigRow) (rc : RoutingConfigRow)
    (phone dk eid : String) :
    ((ghlIntake ctx cId lead).status = 200 ∨ (ghlIntake ctx cId lead).status = 400 ∨
     (ghlIntake ctx cId lead).status = 403 ∨ (ghlIntake ctx cId lead).status = 404 ∨
     (ghlIntake ctx cId lead).status = 500) ∧
    (ctx.verified = false → (ghlIntake ctx cId lead).status = 403) ∧
    (ctx.verified = true → ctx.clientLookup = none → (ghlIntake ctx cId lead).status = 404) ∧
    (ctx.verified = true → ctx.clientLookup = some (client, routing) →
      client.status ≠ "ACTIVE" → (ghlIntake ctx cId lead).status = 200) ∧
    (ctx.verified = true → ctx.clientLookup = some (client, none) →
      client.status = "ACTIVE" → (ghlIntake ctx cId lead).status = 200) ∧
    (ctx.verified = true → ctx.clientLookup = some (client, some rc) →
      client.status = "ACTIVE" → strTruthy lead.rawPhone = false →
      (ghlIntake ctx cId lead).status = 400) ∧
    (ctx.verified = true → ctx.clientLookup = some (client, some rc) →
      client.status = "ACTIVE" → strTruthy lead.rawPhone = true →
      ctx.normPhone (lead.rawPhone.getD "") = none →
      (ghlIntake ctx cId lead).status = 400) ∧
    (ctx.verified = true → ctx.clientLookup = some (client, some rc) →
      client.status = "ACTIVE" → strTruthy lead.rawPhone = true →
      ctx.normPhone (lead.rawPhone.getD "") = some phone →
      generateDedupeKey ctx.windowRaw ctx.nowMs lead.contactId (some phone) = .ok dk →
      ctx.existingLead dk = some eid → (ghlIntake ctx cId lead).status = 200) ∧
    (∀ x, (ghlIntake ctx cId lead).leadFinal = some x →
      (ghlIntake ctx cId lead).status = 200) ∧
    ((ghlIntake ctx cId lead).status = 500 →
      (∃ m, ctx.createLead = .uniqueViolation m) ∨
      (∃ p, ctx.normPhone (lead.rawPhone.getD "") = some p ∧
        ∃ m, generateDedupeKey ctx.windowRaw ctx.nowMs lead.contactId (some p) = .error m)) := by
  refine ⟨?_, ?_, ?_, ?_, ?_, ?_, ?_, ?_, ?_, ?_⟩
  · simp only [ghlIntake]
    repeat' split
    all_goals
      first
        | (left; rfl)
        | (right; left; rfl)
        | (right; right; left; rfl)
        | (right; right; right; left; rfl)
        | (right; right; right; right; rfl)
  · intro h
    simp [ghlIntake, h]
  · intro h h2
    simp [ghlIntake, h, h2]
  · intro h h2 h3
    simp only [ghlIntake, h, h2]
    simp [h3]
  · intro h h2 h3
    simp [ghlIntake, h, h2, h3]
  · intro h h2 h3 h4
    simp [ghlIntake, h, h2, h3, h4]
  · intro h h2 h3 h4 h5
    simp [ghlIntake, h, h2, h3, h4, h5]
  · intro h h2 h3 h4 h5 h6 h7
    simp [ghlIntake, h, h2, h3, h4, h5, h6, h7]
  · intro x hx
    simp only [ghlIntake] at hx ⊢
    repeat' split at hx
    all_goals (try split) <;> simp_all
  · intro h500
    simp only [ghlIntake] at h500
    repeat' split at h500
    all_goals simp_all

/-- C6 witness: the 404 branch of the amended mapping for an unknown
tenant. -/
theorem C6_witness :
    (ghlIntake
        ⟨true, none, fun _ => none, none, 0, fun _ => none, .ok "x", 300,
          fun _ => none, none, ⟨false, none, none⟩⟩
        "ghost-tenant" ⟨none, none, .missing⟩).status = 404 :=
  (C6_response_code_mapping
      ⟨true, none, fun _ => none, none, 0, fun _ => none, .ok "x", 300,
        fun _ => none, none, ⟨false, none, none⟩⟩
      "ghost-tenant" ⟨none, none, .missing⟩
      ⟨"ACTIVE", "tz", "22:00", "06:00"⟩ none ⟨none, "i", none⟩
      "p" "k" "e").2.2.1 rfl rfl

/-! ### C10 — timestamp freshness and the quiet-hours bypass -/

/-- C10: a present-but-unparseable payload timestamp is treated like a
missing one — `ageSeconds` is `null`, the lead counts as immediate, and the
handler dispatches even during quiet hours — while a future-dated timestamp
produces a negative age, is not immediate, and makes the lead subject to
the quiet-hours skip. -/
theorem C10_timestamp_freshness (pd : String → Option Int) (nowMs w t : Int) (s : String)
    (ctx : IntakeCtx) (cId : String) (lead : ParsedLead)
    (client : ClientRow) (rc : RoutingConfigRow) (phone dk lid : String)
    (h1 : ctx.verified = true)
    (h2 : ctx.clientLookup = some (client, some rc))
    (h3 : client.status = "ACTIVE")
    (h4 : strTruthy lead.rawPhone = true)
    (h5 : ctx.normPhone (lead.rawPhone.getD "") = some phone)
    (h6 : generateDedupeKey ctx.windowRaw ctx.nowMs lead.contactId (some phone) = .ok dk)
    (h7 : ctx.existingLead dk = none)
    (h8 : ctx.createLead = .ok lid) :
    (s ≠ "" → pd s = none →
      ageSeconds pd nowMs (.str s) = none ∧
      ageSeconds pd nowMs .missing = none ∧
      isImmediate w (ageSeconds pd nowMs (.str s)) = true) ∧
    (s ≠ "" → pd s = some t → nowMs < t →
      ∃ a, ageSeconds pd nowMs (.str s) = some a ∧ a < 0 ∧
        isImmediate w (some a) = false) ∧
    (lead.timestamp = .str s → s ≠ "" → ctx.parseDate s = none →
      (ghlIntake ctx cId lead).dispatched = true) ∧
    (lead.timestamp = .str s → s ≠ "" → ctx.parseDate s = some t →
      (ctx.nowMs : Int) < t →
      isWithinQuietHours ctx.localNow client.quietHoursStart client.quietHoursEnd = true →
      ghlIntake ctx cId lead =
        ⟨200, "Skipped (quiet hours)", some (.SKIPPED, some "Quiet hours"),
          [⟨"LEAD_CREATED", "Lead created"⟩,
           ⟨"CALL_SKIPPED", "Quiet hours (non-immediate lead)"⟩], false⟩) := by
  have key : ∀ now tt : Int, now < tt →
      (now - tt).fdiv 1000 < 0 := by
    intro now tt hlt
    rw [Int.fdiv_eq_ediv _ (by decide)]
    exact Int.ediv_neg' (by omega) (by decide)
  refine ⟨?_, ?_, ?_, ?_⟩
  · intro hs hpd
    simp [ageSeconds, hs, hpd, isImmediate]
  · intro hs hpd hlt
    refine ⟨(nowMs - t).fdiv 1000, by simp [ageSeconds, hs, hpd], key nowMs t hlt, ?_⟩
    simp [isImmediate]
    intro hge
    exact absurd hge (by have := key nowMs t hlt; omega)
  · intro hts hs hpd
    have hage : ageSeconds ctx.parseDate (ctx.nowMs : Int) lead.timestamp = none := by
      simp [hts, ageSeconds, hs, hpd]
    simp only [ghlIntake]
    simp [h1, h2, h3, h4, h5, h6, h7, h8, hage, isImmediate]
    split <;> rfl
  · intro hts hs hpd hlt hq
    have hneg := key (ctx.nowMs : Int) t hlt
    have himm : isImmediate ctx.immediateWindow
        (ageSeconds ctx.parseDate (ctx.nowMs : Int) lead.timestamp) = false := by
      simp [hts, ageSeconds, hs, hpd, isImmediate]
      intro hge
      exact absurd hge (by omega)
    simp [ghlIntake, h1, h2, h3, h4, h5, h6, h7, h8, himm, hq]

/-- C10 witness: a lead dated 2099 (future timestamp) arriving at epoch 0
during a 23:30 local quiet-hours window is skipped with reason "Quiet
hours". -/
theorem C10_witness :
    ghlIntake
        ⟨true,
         some (⟨"ACTIVE", "America/New_York", "22:00", "06:00"⟩,
           some ⟨some "BLAND", "task", none⟩),
         fun _ => some "+15551234567", none, 0, fun _ => none, .ok "lead-7", 300,
         fun str => if str = "2099-01-01T00:00:00Z" then some 4070908800000 else none,
         some 1410, ⟨true, some "call-1", none⟩⟩
        "client-1" ⟨some "contact-9", some "(555) 123-4567", .str "2099-01-01T00:00:00Z"⟩ =
      ⟨200, "Skipped (quiet hours)", some (.SKIPPED, some "Quiet hours"),
        [⟨"LEAD_CREATED", "Lead created"⟩,
         ⟨"CALL_SKIPPED", "Quiet hours (non-immediate lead)"⟩], false⟩ :=
  (C10_timestamp_freshness (fun _ => none) 0 300 4070908800000 "2099-01-01T00:00:00Z"
      ⟨true,
       some (⟨"ACTIVE", "America/New_York", "22:00", "06:00"⟩,
         some ⟨some "BLAND", "task", none⟩),
       fun _ => some "+15551234567", none, 0, fun _ => none, .ok "lead-7", 300,
       fun str => if str = "2099-01-01T00:00:00Z" then some 4070908800000 else none,
       some 1410, ⟨true, some "call-1", none⟩⟩
      "client-1" ⟨some "contact-9", some "(555) 123-4567", .str "2099-01-01T00:00:00Z"⟩
      ⟨"ACTIVE", "America/New_York", "22:00", "06:00"⟩ ⟨some "BLAND", "task", none⟩
      "+15551234567" "contact_contact-9_w30_b0" "lead-7"
      rfl rfl rfl (by decide) rfl rfl rfl rfl).2.2.2
    rfl (by decide) rfl (by decide) (by decide)

end DS
